import Mathlib

/-!
Shallow embedding of the estate-sms-alerts consent service
(`optin_webhook.py`): phone normalization, the contact store with its
audit trail, the export projector, the Twilio webhook consent state
machine, and the administrative mutation endpoints.  The embedding is
sequential: each request handler is one atomic function from a `World`
(database plus exported artifacts) to a new `World` and a reply.
-/

namespace EstateSms

/-! ### Python string helpers -/

/-- Whitespace characters recognized by Python's `str.strip` / `str.split` /
regex `\s` (ASCII fragment, which is all the program relies on). -/
def is_space (c : Char) : Bool :=
  c.toNat == 32 || c.toNat == 9 || c.toNat == 10 || c.toNat == 13 ||
    c.toNat == 11 || c.toNat == 12

/-- Python `str.strip()`. -/
def pyStrip (s : String) : String :=
  String.mk ((((s.toList.dropWhile is_space).reverse).dropWhile is_space).reverse)

/-- ASCII uppercase of one character (Python `str.upper()` on the
character sets this program feeds it). -/
def char_upper (c : Char) : Char :=
  if 97 ≤ c.toNat ∧ c.toNat ≤ 122 then Char.ofNat (c.toNat - 32) else c

/-- Python `str.upper()` applied characterwise. -/
def pyUpper (s : String) : String :=
  String.mk (s.toList.map char_upper)

/-- Whitespace-run splitter behind `str.split()`: `acc` is the current
token, reversed. -/
def split_ws_aux : List Char → List Char → List String
  | [], acc => if acc.isEmpty then [] else [String.mk acc.reverse]
  | c :: rest, acc =>
      if is_space c then
        if acc.isEmpty then split_ws_aux rest []
        else String.mk acc.reverse :: split_ws_aux rest []
      else split_ws_aux rest (c :: acc)

/-- `tokens_upper`: `(body or "").strip().upper()` then `.split()` —
whitespace-run split, empties discarded, yielding the keyword tokens. -/
def tokens_upper (body : String) : List String :=
  split_ws_aux ((pyUpper (pyStrip body)).toList) []

/-- Nonempty intersection of a token list with a keyword vocabulary,
modelling Python's `toks & KEYWORDS`. -/
def hasAny (toks kws : List String) : Bool :=
  toks.any (fun t => kws.contains t)

def OPTIN_KEYWORDS : List String := ["JOIN", "START", "SUBSCRIBE"]

def OPTOUT_KEYWORDS : List String :=
  ["STOP", "STOPALL", "UNSUBSCRIBE", "CANCEL", "END", "QUIT", "STOPA", "STOP1", "STOP2"]

def HELP_KEYWORDS : List String := ["HELP", "INFO"]

def ASK_NAME_ON_JOIN : Bool := true

def DEFAULT_REGION : String := "US"

/-- Characters kept by `clean_name`'s regex `[^a-zA-Z\s'\-]` deletion:
ASCII letters, whitespace, apostrophe, hyphen. -/
def name_char_allowed (c : Char) : Bool :=
  (97 ≤ c.toNat && c.toNat ≤ 122) || (65 ≤ c.toNat && c.toNat ≤ 90) || is_space c ||
    c.toNat == 39 || c.toNat == 45

/-- `re.sub(r"\s+", " ", s)`: replace every maximal whitespace run with a
single space. -/
def collapse_ws : List Char → List Char
  | [] => []
  | [c] => if is_space c then [' '] else [c]
  | c :: d :: rest =>
      if is_space c && is_space d then collapse_ws (d :: rest)
      else (if is_space c then ' ' else c) :: collapse_ws (d :: rest)

/-- `clean_name`: strip, delete disallowed characters, collapse interior
whitespace, strip again, truncate to 40 characters (`s[:40]`). -/
def clean_name (s : String) : String :=
  let s1 := (pyStrip s).toList.filter name_char_allowed
  let s2 := pyStrip (String.mk (collapse_ws s1))
  String.mk (s2.toList.take 40)

/-! ### Phone normalization

The `phonenumbers` library lives outside the repository; it is modelled
as an abstract interface: a parser from raw text and an optional region
to an abstract parsed number, a validity predicate, and an E.164
formatter.  `parse` returning `none` models both structural parse
failures and the exceptions the library raises. -/

structure PhoneLib where
  parse : String → Option String → Option Nat
  is_valid_number : Nat → Bool
  format_e164 : Nat → String

/-- `raw.startswith("+")`. -/
def starts_with_plus (s : String) : Bool :=
  match s.toList with
  | [] => false
  | c :: _ => c.toNat == 43

/-- `normalize_e164`: strip; empty means invalid; parse with no region
when the text starts with `+`, else with the default region; reject
parse failures and invalid numbers; otherwise format as E.164. -/
def normalize_e164 (lib : PhoneLib) (raw : String) (default_region : String) : Option String :=
  let raw := pyStrip raw
  if raw = "" then none
  else
    match lib.parse raw (if starts_with_plus raw then none else some default_region) with
    | none => none
    | some parsed =>
        if lib.is_valid_number parsed then some (lib.format_e164 parsed) else none

/-! ### Data model -/

/-- One row of the `contacts` table: surrogate integer id, unique phone,
free-text name, boolean consent (`opted_out`), timestamps. -/
structure Contact where
  id : Nat
  phone : String
  name : String
  opted_out : Bool
  created_at : Nat
  updated_at : Nat
deriving DecidableEq, Repr

/-- One row of the `audit_log` table; `before` and `after` hold the full
contact snapshots that the code serializes to JSON. -/
structure AuditEntry where
  actor : String
  action : String
  contact_id : Option Nat
  before : Option Contact
  after : Option Contact
  created_at : Nat
deriving DecidableEq, Repr

/-- The SQLite database: contacts in insertion order, the AUTOINCREMENT
counter, and the append-only audit log. -/
structure DB where
  contacts : List Contact
  nextId : Nat
  audit : List AuditEntry
deriving DecidableEq, Repr

/-- Fresh database produced by `init_db`. -/
def dbInit : DB := ⟨[], 1, []⟩

/-- The database together with the two exported artifacts
(`contacts.csv` data rows and `optouts.txt` lines). -/
structure World where
  db : DB
  csvRows : List (String × String)
  optouts : List String
deriving DecidableEq, Repr

/-! ### Contact store operations -/

/-- `get_contact_by_phone`: exact-match lookup on canonical phone. -/
def get_contact_by_phone (db : DB) (phone : String) : Option Contact :=
  db.contacts.find? (fun c => c.phone == phone)

/-- `get_contact_by_id`. -/
def get_contact_by_id (db : DB) (contact_id : Nat) : Option Contact :=
  db.contacts.find? (fun c => c.id == contact_id)

/-- `add_contact`: insert with `opted_out = 0`; the UNIQUE constraint on
`phone` turns a duplicate insert into an `IntegrityError`, returned as
`false` with no mutation.  On success, optionally audit a `create`. -/
def add_contact (db : DB) (now : Nat) (phone name actor : String) (log : Bool) :
    DB × Bool :=
  if db.contacts.any (fun c => c.phone == phone) then (db, false)
  else
    let c : Contact := ⟨db.nextId, phone, name, false, now, now⟩
    let db1 : DB := ⟨db.contacts ++ [c], db.nextId + 1, db.audit⟩
    if log then
      let cAfter := get_contact_by_phone db1 phone
      (⟨db1.contacts, db1.nextId,
        db1.audit ++ [⟨actor, "create", cAfter.map (·.id), none, cAfter, now⟩]⟩, true)
    else (db1, true)

/-- `set_opted_out`: read the before snapshot, update `opted_out` and
`updated_at` on the row with this phone, read the after snapshot, and
audit `opt_out`/`opt_in` when logging and the row exists. -/
def set_opted_out (db : DB) (now : Nat) (phone : String) (opted_out : Bool)
    (actor : String) (log : Bool) : DB :=
  let before := get_contact_by_phone db phone
  let contacts' := db.contacts.map (fun c =>
    if c.phone == phone then { c with opted_out := opted_out, updated_at := now } else c)
  let db1 : DB := ⟨contacts', db.nextId, db.audit⟩
  match get_contact_by_phone db1 phone with
  | some a =>
      if log then
        ⟨db1.contacts, db1.nextId,
          db1.audit ++ [⟨actor, if opted_out then "opt_out" else "opt_in",
            some a.id, before, get_contact_by_phone db1 phone, now⟩]⟩
      else db1
  | none => db1

/-- `delete_contact` (by phone): delete the row, audit `delete` when the
row existed. -/
def delete_contact (db : DB) (now : Nat) (phone actor : String) (log : Bool) : DB :=
  let before := get_contact_by_phone db phone
  let db1 : DB := ⟨db.contacts.filter (fun c => !(c.phone == phone)), db.nextId, db.audit⟩
  match before with
  | some b =>
      if log then
        ⟨db1.contacts, db1.nextId,
          db1.audit ++ [⟨actor, "delete", some b.id, before, none, now⟩]⟩
      else db1
  | none => db1

/-- `delete_contact_by_id`: `false` without mutation when the id is
unknown; otherwise delete, audit `delete`, return `true`. -/
def delete_contact_by_id (db : DB) (now : Nat) (contact_id : Nat) (actor : String)
    (log : Bool) : DB × Bool :=
  match get_contact_by_id db contact_id with
  | none => (db, false)
  | some before =>
      let db1 : DB := ⟨db.contacts.filter (fun c => !(c.id == contact_id)), db.nextId, db.audit⟩
      (if log then
        ⟨db1.contacts, db1.nextId,
          db1.audit ++ [⟨actor, "delete", some contact_id, some before, none, now⟩]⟩
      else db1, true)

/-- `update_contact` (by phone; no internal audit — its callers audit):
not-found and phone-collision errors are returned as messages with no
mutation; otherwise the row keyed by `old_phone` gets the new phone,
name and `updated_at`. -/
def update_contact (db : DB) (now : Nat) (old_phone new_phone new_name : String) :
    DB × Option String :=
  match get_contact_by_phone db old_phone with
  | none => (db, some "Contact not found.")
  | some _ =>
      if new_phone ≠ old_phone ∧ (get_contact_by_phone db new_phone).isSome then
        (db, some "That phone number already exists.")
      else
        (⟨db.contacts.map (fun c =>
            if c.phone == old_phone then
              { c with phone := new_phone, name := new_name, updated_at := now }
            else c), db.nextId, db.audit⟩, none)

/-- `update_contact_by_id`: full admin edit; raises (here `.error`) on
unknown id or when the new phone collides with a different contact;
otherwise writes all fields, audits one `update` with before/after
snapshots, and returns the after row. -/
def update_contact_by_id (db : DB) (now : Nat) (contact_id : Nat)
    (new_phone new_name : String) (opted_out : Bool) (actor : String) :
    Except String (DB × Option Contact) :=
  match get_contact_by_id db contact_id with
  | none => .error "Contact not found."
  | some before =>
      let collision : Bool :=
        (new_phone != before.phone) &&
          (match get_contact_by_phone db new_phone with
           | some existing => existing.id != contact_id
           | none => false)
      if collision then .error "That phone number already exists."
      else
        let contacts' := db.contacts.map (fun c =>
          if c.id == contact_id then
            { c with phone := new_phone, name := new_name,
                     opted_out := opted_out, updated_at := now }
          else c)
        let db1 : DB := ⟨contacts', db.nextId, db.audit⟩
        let after := get_contact_by_id db1 contact_id
        .ok (⟨db1.contacts, db1.nextId,
              db1.audit ++ [⟨actor, "update", some contact_id, some before, after, now⟩]⟩,
             after)

/-! ### Export projector -/

/-- Insert into a list kept in descending `updated_at` order
(`ORDER BY updated_at DESC`). -/
def insertByUpdatedDesc (c : Contact) : List Contact → List Contact
  | [] => [c]
  | d :: rest =>
      if d.updated_at ≥ c.updated_at then d :: insertByUpdatedDesc c rest
      else c :: d :: rest

/-- Sort contacts most-recently-updated first. -/
def sortByUpdatedDesc : List Contact → List Contact
  | [] => []
  | c :: rest => insertByUpdatedDesc c (sortByUpdatedDesc rest)

/-- The `contacts.csv` data rows (the file also carries the constant
header row `phone,name`): opted-in contacts, most recent first. -/
def csvOf (db : DB) : List (String × String) :=
  (sortByUpdatedDesc (db.contacts.filter (fun c => !c.opted_out))).map
    (fun c => (c.phone, c.name))

/-- The header row written before `csvOf`'s rows. -/
def csvHeader : String × String := ("phone", "name")

/-- The `optouts.txt` lines: opted-out phones, most recent first. -/
def optoutsOf (db : DB) : List String :=
  (sortByUpdatedDesc (db.contacts.filter (fun c => c.opted_out))).map (·.phone)

/-- `export_contacts_csv_and_optouts`: full overwrite of both artifacts
from the current store contents. -/
def export_refresh (w : World) : World :=
  ⟨w.db, csvOf w.db, optoutsOf w.db⟩

/-! ### Webhook reply texts -/

def reply_invalid : String :=
  "Invalid number. Reply JOIN to subscribe. Reply STOP to opt out."

def reply_generic : String :=
  "Reply JOIN to subscribe. Reply STOP to opt out."

def reply_opted_out : String :=
  "You’re opted out. Reply START to resubscribe."

def reply_subscribed : String :=
  "You’re subscribed! Reply STOP to opt out."

def reply_ask_name : String :=
  "You’re subscribed! Reply with your first name (example: Joey). Reply STOP to opt out."

def reply_thanks (name : String) : String :=
  "Thanks, " ++ name ++ "! You’re all set. Reply STOP to opt out."

/-! ### The webhook consent state machine (`inbound_sms`) -/

/-- The `/sms` handler: normalize the sender, tokenize the body, then
first-match-wins over opt-out, help, opt-in, name capture, default. -/
def inbound_sms (lib : PhoneLib) (w : World) (now : Nat)
    (from_number body_raw : String) : World × String :=
  let body := pyStrip body_raw
  let toks := tokens_upper body
  match normalize_e164 lib from_number DEFAULT_REGION with
  | none => (w, reply_invalid)
  | some phone =>
    let c := get_contact_by_phone w.db phone
    if hasAny toks OPTOUT_KEYWORDS then
      let db1 :=
        match c with
        | some _ => set_opted_out w.db now phone true "system" true
        | none =>
            let (db0, _) := add_contact w.db now phone "" "system" true
            set_opted_out db0 now phone true "system" true
      (export_refresh ⟨db1, w.csvRows, w.optouts⟩, reply_opted_out)
    else if hasAny toks HELP_KEYWORDS then
      (w, reply_generic)
    else if hasAny toks OPTIN_KEYWORDS then
      match c with
      | some _ =>
          let db1 := set_opted_out w.db now phone false "system" true
          (export_refresh ⟨db1, w.csvRows, w.optouts⟩, reply_subscribed)
      | none =>
          -- new subscriber
          let (db0, _) := add_contact w.db now phone "" "system" true
          let db1 := set_opted_out db0 now phone false "system" true
          (export_refresh ⟨db1, w.csvRows, w.optouts⟩,
           if ASK_NAME_ON_JOIN then reply_ask_name else reply_subscribed)
    else
      -- if opted in and name is empty, treat message as name
      match c with
      | some cc =>
          if cc.opted_out = false ∧ ASK_NAME_ON_JOIN ∧ pyStrip cc.name = "" then
            let name := clean_name body
            if name ≠ "" then
              let before := get_contact_by_phone w.db phone
              let (db1, _) := update_contact w.db now phone phone name
              let after := get_contact_by_phone db1 phone
              let db2 :=
                match after with
                | some a =>
                    (⟨db1.contacts, db1.nextId,
                      db1.audit ++ [⟨"system", "update", some a.id, before, after, now⟩]⟩ : DB)
                | none => db1
              (export_refresh ⟨db2, w.csvRows, w.optouts⟩, reply_thanks name)
            else (w, reply_generic)
          else (w, reply_generic)
      | none => (w, reply_generic)

/-! ### Administrative actions

Each admin route is modelled by the store/audit/export work it performs
once past session and rendering concerns; `actor` is the logged-in
admin identity. -/

/-- `POST /admin/add`: normalize, clean the name, `add_contact`, and
refresh the exports on success; distinguishable messages otherwise. -/
def admin_add (lib : PhoneLib) (w : World) (now : Nat)
    (raw_phone raw_name actor : String) : World × String :=
  match normalize_e164 lib raw_phone DEFAULT_REGION with
  | none => (w, "That phone number looks invalid. Try again (include area code).")
  | some phone =>
      let name := clean_name raw_name
      let (db1, added) := add_contact w.db now phone name actor true
      if added then (export_refresh ⟨db1, w.csvRows, w.optouts⟩, "Added: " ++ phone)
      else (w, "Number already added.")

/-- `POST /admin/api/contacts/<id>`: inline edit; on success the update
is audited and the exports refreshed, errors leave the world unchanged. -/
def admin_api_update_contact (lib : PhoneLib) (w : World) (now : Nat)
    (contact_id : Nat) (raw_phone raw_name : String) (opted_out_raw : String)
    (actor : String) : World × String :=
  match normalize_e164 lib (pyStrip raw_phone) DEFAULT_REGION with
  | none => (w, "Invalid phone number.")
  | some phone =>
      let name := clean_name (pyStrip raw_name)
      let opted_out := ["1", "true", "True"].contains (pyStrip opted_out_raw)
      match update_contact_by_id w.db now contact_id phone name opted_out actor with
      | .error e => (w, e)
      | .ok (db1, _) => (export_refresh ⟨db1, w.csvRows, w.optouts⟩, "ok")

/-- `POST /admin/api/contacts/<id>/delete`: delete by id, refreshing the
exports only when a row was deleted. -/
def admin_api_delete_contact (w : World) (now : Nat) (contact_id : Nat)
    (actor : String) : World × String :=
  let (db1, ok) := delete_contact_by_id w.db now contact_id actor true
  if ok then (export_refresh ⟨db1, w.csvRows, w.optouts⟩, "ok")
  else (w, "Contact not found.")

/-- `POST /admin/contacts/optout` (and, with `false`, `/optin`): the raw
phone falls back to itself when normalization fails; nonempty phones get
`set_opted_out` plus an export refresh. -/
def admin_contacts_set_consent (lib : PhoneLib) (w : World) (now : Nat)
    (raw_phone : String) (opted_out : Bool) (actor : String) : World :=
  let phone := (normalize_e164 lib raw_phone DEFAULT_REGION).getD raw_phone
  if phone ≠ "" then
    let db1 := set_opted_out w.db now phone opted_out actor true
    export_refresh ⟨db1, w.csvRows, w.optouts⟩
  else w

/-- `POST /admin/contacts/delete` (legacy endpoint, keyed by phone). -/
def admin_contacts_delete (lib : PhoneLib) (w : World) (now : Nat)
    (raw_phone actor : String) : World :=
  let phone := (normalize_e164 lib raw_phone DEFAULT_REGION).getD raw_phone
  if phone ≠ "" then
    let db1 := delete_contact w.db now phone actor true
    export_refresh ⟨db1, w.csvRows, w.optouts⟩
  else w

/-- `POST /admin/contacts/edit` (legacy edit page): unaudited
`update_contact` plus unlogged `set_opted_out`, then a single `update`
audit entry over the whole edit, then the export refresh. -/
def admin_contacts_edit (lib : PhoneLib) (w : World) (now : Nat)
    (old_phone_raw new_phone_raw name_raw opted_out_raw actor : String) :
    World × String :=
  let old_phone := (normalize_e164 lib old_phone_raw DEFAULT_REGION).getD old_phone_raw
  match normalize_e164 lib new_phone_raw DEFAULT_REGION with
  | none => (w, "Invalid phone number.")
  | some new_phone =>
      let new_name := clean_name name_raw
      let before := get_contact_by_phone w.db old_phone
      match update_contact w.db now old_phone new_phone new_name with
      | (_, some err) => (w, err)
      | (db1, none) =>
          let opted_out_val := pyStrip opted_out_raw = "1"
          let db2 := set_opted_out db1 now new_phone opted_out_val actor false
          let after := get_contact_by_phone db2 new_phone
          let db3 :=
            match after with
            | some a =>
                (⟨db2.contacts, db2.nextId,
                  db2.audit ++ [⟨actor, "update", some a.id, before, after, now⟩]⟩ : DB)
            | none => db2
          (export_refresh ⟨db3, w.csvRows, w.optouts⟩, "ok")

/-! ### A concrete phone library instance for evaluation -/

/-- Toy instance of the abstract `phonenumbers` interface, recognizing
the spec's example number in international and US-local form. -/
def toyLib : PhoneLib where
  parse raw region :=
    if raw == "+14125550100" then some 14125550100
    else if raw == "(412) 555-0100" && region == some "US" then some 14125550100
    else none
  is_valid_number n := n == 14125550100
  format_e164 _ := "+14125550100"

/-! ### List lemmas about keyed lookup and update -/

theorem any_eq_false_iff_find?_eq_none {α : Type} (p : α → Bool) (l : List α) :
    l.any p = false ↔ l.find? p = none := by
  induction l with
  | nil => simp
  | cons a l ih => cases hpa : p a <;> simp [List.find?_cons, hpa, ih]

theorem find?_append_of_none {α : Type} {p : α → Bool} {l₁ : List α} (l₂ : List α)
    (h : l₁.find? p = none) : (l₁ ++ l₂).find? p = l₂.find? p := by
  induction l₁ with
  | nil => simp
  | cons a l ih =>
      cases hpa : p a with
      | false =>
          simp only [List.find?_cons, hpa] at h
          simpa [List.cons_append, List.find?_cons, hpa] using ih h
      | true => simp [List.find?_cons, hpa] at h

theorem find?_map_keyed (p : Contact → Bool) (g : Contact → Contact)
    (hg : ∀ c, p c = true → p (g c) = true) (l : List Contact) :
    (l.map (fun c => if p c then g c else c)).find? p = (l.find? p).map g := by
  induction l with
  | nil => simp
  | cons a l ih =>
      cases hpa : p a with
      | true => simp [List.find?_cons, hpa, hg a hpa]
      | false => simp [List.find?_cons, hpa, ih]

theorem map_keyed_of_none (p : Contact → Bool) (g : Contact → Contact) {l : List Contact}
    (h : l.find? p = none) : l.map (fun c => if p c then g c else c) = l := by
  induction l with
  | nil => simp
  | cons a l ih =>
      cases hpa : p a with
      | true => simp [List.find?_cons, hpa] at h
      | false =>
          simp only [List.find?_cons, hpa] at h
          simp [hpa, ih h]

theorem find?_filter_not {p : Contact → Bool} (l : List Contact) :
    (l.filter (fun c => !(p c))).find? p = none := by
  induction l with
  | nil => simp
  | cons a l ih => cases hpa : p a <;> simp [List.filter_cons, hpa, List.find?_cons, ih]

theorem phone_eq_of_get (db : DB) (phone : String) (c : Contact)
    (h : get_contact_by_phone db phone = some c) : c.phone = phone := by
  have := List.find?_some h
  simpa using this

theorem mem_of_get_phone (db : DB) (phone : String) (c : Contact)
    (h : get_contact_by_phone db phone = some c) : c ∈ db.contacts :=
  List.mem_of_find?_eq_some h

theorem id_eq_of_get (db : DB) (contact_id : Nat) (c : Contact)
    (h : get_contact_by_id db contact_id = some c) : c.id = contact_id := by
  have := List.find?_some h
  simpa using this

theorem mem_of_get_id (db : DB) (contact_id : Nat) (c : Contact)
    (h : get_contact_by_id db contact_id = some c) : c ∈ db.contacts :=
  List.mem_of_find?_eq_some h

/-! ### Behavioral lemmas for the store operations -/

/-- `set_opted_out` on a present phone: one field update plus exactly one
audit entry carrying the before/after snapshots. -/
theorem set_opted_out_existing (db : DB) (now : Nat) (phone : String) (oo : Bool)
    (actor : String) (c : Contact) (h : get_contact_by_phone db phone = some c) :
    set_opted_out db now phone oo actor true =
      ⟨db.contacts.map (fun d => if d.phone == phone then
          { d with opted_out := oo, updated_at := now } else d),
        db.nextId,
        db.audit ++ [⟨actor, if oo then "opt_out" else "opt_in", some c.id, some c,
          some { c with opted_out := oo, updated_at := now }, now⟩]⟩ := by
  have hmap :
      get_contact_by_phone
        ⟨db.contacts.map (fun d => if d.phone == phone then
            { d with opted_out := oo, updated_at := now } else d),
          db.nextId, db.audit⟩ phone
      = some { c with opted_out := oo, updated_at := now } := by
    unfold get_contact_by_phone at h ⊢
    rw [show {
          contacts :=
            List.map
              (fun d =>
                if (d.phone == phone) = true then
                  { d with opted_out := oo, updated_at := now }
                else d)
              db.contacts,
          nextId := db.nextId, audit := db.audit : DB }.contacts
        = List.map
              (fun d =>
                if (d.phone == phone) = true then
                  { d with opted_out := oo, updated_at := now }
                else d)
              db.contacts from rfl,
      find?_map_keyed (fun d => d.phone == phone)
        (fun d => { d with opted_out := oo, updated_at := now })
        (fun d hd => hd) db.contacts, h]
    rfl
  unfold set_opted_out
  rw [show (get_contact_by_phone db phone) = some c from h] at *
  simp only [hmap]
  rfl

/-- `set_opted_out` on an absent phone is a complete no-op. -/
theorem set_opted_out_absent (db : DB) (now : Nat) (phone : String) (oo : Bool)
    (actor : String) (log : Bool) (h : get_contact_by_phone db phone = none) :
    set_opted_out db now phone oo actor log = db := by
  have hmap : db.contacts.map (fun d => if d.phone == phone then
      { d with opted_out := oo, updated_at := now } else d) = db.contacts :=
    map_keyed_of_none (fun d => d.phone == phone)
      (fun d => { d with opted_out := oo, updated_at := now }) h
  unfold set_opted_out
  simp only [hmap]
  have h2 : get_contact_by_phone ⟨db.contacts, db.nextId, db.audit⟩ phone = none := h
  simp only [h2]

/-- `add_contact` on an absent phone: append the new row and exactly one
`create` audit entry snapshotting it. -/
theorem add_contact_absent (db : DB) (now : Nat) (phone name actor : String)
    (h : get_contact_by_phone db phone = none) :
    add_contact db now phone name actor true =
      (⟨db.contacts ++ [⟨db.nextId, phone, name, false, now, now⟩], db.nextId + 1,
        db.audit ++ [⟨actor, "create", some db.nextId, none,
          some ⟨db.nextId, phone, name, false, now, now⟩, now⟩]⟩, true) := by
  have hany : db.contacts.any (fun c => c.phone == phone) = false :=
    (any_eq_false_iff_find?_eq_none _ _).mpr h
  have hget :
      get_contact_by_phone
        ⟨db.contacts ++ [⟨db.nextId, phone, name, false, now, now⟩],
          db.nextId + 1, db.audit⟩ phone
      = some ⟨db.nextId, phone, name, false, now, now⟩ := by
    unfold get_contact_by_phone at h ⊢
    rw [find?_append_of_none _ h]
    simp [List.find?_cons]
  unfold add_contact
  rw [hany]
  simp only [Bool.false_eq_true, if_false, if_true]
  rw [hget]
  rfl

/-- `add_contact` on a present phone: `IntegrityError`, no mutation. -/
theorem add_contact_present (db : DB) (now : Nat) (phone name actor : String)
    (log : Bool) (h : db.contacts.any (fun c => c.phone == phone) = true) :
    add_contact db now phone name actor log = (db, false) := by
  unfold add_contact
  rw [h]
  rfl

/-- `update_contact` keyed by an unknown phone: not-found, no mutation. -/
theorem update_contact_notfound (db : DB) (now : Nat) (old_phone new_phone new_name : String)
    (h : get_contact_by_phone db old_phone = none) :
    update_contact db now old_phone new_phone new_name = (db, some "Contact not found.") := by
  unfold update_contact
  rw [h]

/-- `update_contact` renaming onto a phone another contact holds:
distinguishable error, no mutation. -/
theorem update_contact_collision (db : DB) (now : Nat) (old_phone new_phone new_name : String)
    (c₀ : Contact) (h : get_contact_by_phone db old_phone = some c₀)
    (hne : new_phone ≠ old_phone)
    (hex : (get_contact_by_phone db new_phone).isSome = true) :
    update_contact db now old_phone new_phone new_name =
      (db, some "That phone number already exists.") := by
  unfold update_contact
  rw [h]
  simp [hne, hex]

/-- `update_contact` keeping the same phone on a present contact: pure
field update of that row. -/
theorem update_contact_same (db : DB) (now : Nat) (phone new_name : String)
    (c : Contact) (h : get_contact_by_phone db phone = some c) :
    update_contact db now phone phone new_name =
      (⟨db.contacts.map (fun d => if d.phone == phone then
          { d with phone := phone, name := new_name, updated_at := now } else d),
        db.nextId, db.audit⟩, none) := by
  unfold update_contact
  rw [h]
  simp

/-- Lookup after `update_contact_same`. -/
theorem get_update_contact_same (db : DB) (now : Nat) (phone new_name : String)
    (c : Contact) (h : get_contact_by_phone db phone = some c) :
    get_contact_by_phone (update_contact db now phone phone new_name).1 phone =
      some { c with phone := phone, name := new_name, updated_at := now } := by
  rw [update_contact_same db now phone new_name c h]
  unfold get_contact_by_phone at h ⊢
  have hmk := find?_map_keyed (fun d => d.phone == phone)
      (fun d => { d with phone := phone, name := new_name, updated_at := now })
      (fun d _ => by simp) db.contacts
  simp only [hmk, h]
  rfl

/-- `update_contact_by_id` on an unknown id: not-found error. -/
theorem update_contact_by_id_notfound (db : DB) (now : Nat) (contact_id : Nat)
    (new_phone new_name : String) (opted_out : Bool) (actor : String)
    (h : get_contact_by_id db contact_id = none) :
    update_contact_by_id db now contact_id new_phone new_name opted_out actor =
      .error "Contact not found." := by
  unfold update_contact_by_id
  rw [h]

/-- `update_contact_by_id` whose new phone collides with a different
contact: distinguishable error, nothing written. -/
theorem update_contact_by_id_collision (db : DB) (now : Nat) (contact_id : Nat)
    (new_phone new_name : String) (opted_out : Bool) (actor : String)
    (before existing : Contact)
    (hb : get_contact_by_id db contact_id = some before)
    (hne : new_phone ≠ before.phone)
    (hex : get_contact_by_phone db new_phone = some existing)
    (hid : existing.id ≠ contact_id) :
    update_contact_by_id db now contact_id new_phone new_name opted_out actor =
      .error "That phone number already exists." := by
  unfold update_contact_by_id
  rw [hb]
  have hcond : ((new_phone != before.phone) &&
      (match get_contact_by_phone db new_phone with
       | some e => e.id != contact_id
       | none => false)) = true := by
    rw [hex]
    simp [bne_iff_ne, hne, hid]
  simp only [hcond, if_true]

/-- All-field admin edit of one contact row. -/
def edit_fields (c : Contact) (new_phone new_name : String) (opted_out : Bool)
    (now : Nat) : Contact :=
  { c with phone := new_phone, name := new_name, opted_out := opted_out, updated_at := now }

/-- `update_contact_by_id` succeeding: all fields written on the row with
this id, exactly one `update` audit entry with before/after snapshots. -/
theorem update_contact_by_id_ok (db : DB) (now : Nat) (contact_id : Nat)
    (new_phone new_name : String) (opted_out : Bool) (actor : String)
    (before : Contact)
    (hb : get_contact_by_id db contact_id = some before)
    (hcol : ((new_phone != before.phone) &&
        (match get_contact_by_phone db new_phone with
         | some existing => existing.id != contact_id
         | none => false)) = false) :
    update_contact_by_id db now contact_id new_phone new_name opted_out actor =
      .ok (⟨db.contacts.map (fun d => if d.id == contact_id then
              edit_fields d new_phone new_name opted_out now else d),
            db.nextId,
            db.audit ++ [⟨actor, "update", some contact_id, some before,
              some (edit_fields before new_phone new_name opted_out now), now⟩]⟩,
           some (edit_fields before new_phone new_name opted_out now)) := by
  have hafter :
      get_contact_by_id
        ⟨db.contacts.map (fun d => if d.id == contact_id then
            edit_fields d new_phone new_name opted_out now else d),
          db.nextId, db.audit⟩ contact_id
      = some (edit_fields before new_phone new_name opted_out now) := by
    unfold get_contact_by_id at hb ⊢
    have hmk := find?_map_keyed (fun d => d.id == contact_id)
        (fun d => edit_fields d new_phone new_name opted_out now)
        (fun d hd => hd) db.contacts
    simp only [hmk, hb]
    rfl
  unfold update_contact_by_id
  rw [hb]
  simp only [hcol, Bool.false_eq_true, if_false]
  simp only [edit_fields] at hafter ⊢
  rw [hafter]

/-- `delete_contact` on a present phone: row removed, exactly one
`delete` audit entry whose before snapshot is the removed row. -/
theorem delete_contact_existing (db : DB) (now : Nat) (phone actor : String)
    (c : Contact) (h : get_contact_by_phone db phone = some c) :
    delete_contact db now phone actor true =
      ⟨db.contacts.filter (fun d => !(d.phone == phone)), db.nextId,
        db.audit ++ [⟨actor, "delete", some c.id, some c, none, now⟩]⟩ := by
  unfold delete_contact
  rw [h]
  rfl

/-- `delete_contact_by_id` on a known id: row removed, one `delete`
audit entry, `true` returned. -/
theorem delete_contact_by_id_found (db : DB) (now : Nat) (contact_id : Nat)
    (actor : String) (c : Contact) (h : get_contact_by_id db contact_id = some c) :
    delete_contact_by_id db now contact_id actor true =
      (⟨db.contacts.filter (fun d => !(d.id == contact_id)), db.nextId,
        db.audit ++ [⟨actor, "delete", some contact_id, some c, none, now⟩]⟩, true) := by
  unfold delete_contact_by_id
  rw [h]
  rfl

/-- Lookup after `set_opted_out` on a present phone. -/
theorem get_set_opted_out_existing (db : DB) (now : Nat) (phone : String) (oo : Bool)
    (actor : String) (c : Contact) (h : get_contact_by_phone db phone = some c) :
    get_contact_by_phone (set_opted_out db now phone oo actor true) phone =
      some { c with opted_out := oo, updated_at := now } := by
  rw [set_opted_out_existing db now phone oo actor c h]
  unfold get_contact_by_phone at h ⊢
  have hmk := find?_map_keyed (fun d => d.phone == phone)
      (fun d => { d with opted_out := oo, updated_at := now })
      (fun d hd => hd) db.contacts
  simp only [hmk, h]
  rfl

/-- Lookup after a successful `add_contact`. -/
theorem get_add_contact_absent (db : DB) (now : Nat) (phone name actor : String)
    (h : get_contact_by_phone db phone = none) :
    get_contact_by_phone (add_contact db now phone name actor true).1 phone =
      some ⟨db.nextId, phone, name, false, now, now⟩ := by
  rw [add_contact_absent db now phone name actor h]
  unfold get_contact_by_phone at h ⊢
  rw [show ((⟨db.contacts ++ [⟨db.nextId, phone, name, false, now, now⟩], db.nextId + 1,
        db.audit ++ [⟨actor, "create", some db.nextId, none,
          some ⟨db.nextId, phone, name, false, now, now⟩, now⟩]⟩, true) : DB × Bool).1.contacts
      = db.contacts ++ [⟨db.nextId, phone, name, false, now, now⟩] from rfl]
  rw [find?_append_of_none _ h]
  simp [List.find?_cons]

/-- Lookup after `delete_contact` finds nothing. -/
theorem get_delete_contact (db : DB) (now : Nat) (phone actor : String) (log : Bool) :
    get_contact_by_phone (delete_contact db now phone actor log) phone = none := by
  unfold delete_contact get_contact_by_phone
  cases hb : List.find? (fun c => c.phone == phone) db.contacts <;>
    cases log <;>
    simp [find?_filter_not]

/-! ### Claim theorems -/

/-- C5: `inbound_sms` is a total function by construction — every branch
yields a reply pair.  When the sender fails normalization it returns the
instruction reply and the whole world is unchanged: no contact is
created, updated, or deleted, and the exported artifacts are not
refreshed. -/
theorem inbound_sms_invalid_sender (lib : PhoneLib) (w : World) (now : Nat)
    (from_number body : String)
    (hn : normalize_e164 lib from_number DEFAULT_REGION = none) :
    inbound_sms lib w now from_number body = (w, reply_invalid) := by
  unfold inbound_sms
  rw [hn]

/-- Witness for C5 at a malformed sender. -/
theorem inbound_sms_invalid_sender_witness :
    inbound_sms toyLib ⟨dbInit, [], []⟩ 3 "garbage" "JOIN" = (⟨dbInit, [], []⟩, reply_invalid) :=
  inbound_sms_invalid_sender toyLib ⟨dbInit, [], []⟩ 3 "garbage" "JOIN" (by decide)

/-- C6: `normalize_e164` parses input beginning with `+` with no assumed
region and all other input against the default region; it returns `none`
exactly when the input is empty after trimming, the library parse fails
(or raises), or the parsed number is invalid; on success it returns the
library's single canonical E.164 string for the parsed number.  It is a
pure function of its arguments by construction. -/
theorem normalize_e164_contract (lib : PhoneLib) (raw region : String) :
    (normalize_e164 lib raw region = none ↔
      pyStrip raw = "" ∨
      lib.parse (pyStrip raw)
        (if starts_with_plus (pyStrip raw) then none else some region) = none ∨
      (∃ p, lib.parse (pyStrip raw)
          (if starts_with_plus (pyStrip raw) then none else some region) = some p ∧
        lib.is_valid_number p = false)) ∧
    (∀ p, lib.parse (pyStrip raw)
        (if starts_with_plus (pyStrip raw) then none else some region) = some p →
      lib.is_valid_number p = true → pyStrip raw ≠ "" →
      normalize_e164 lib raw region = some (lib.format_e164 p)) := by
  unfold normalize_e164
  by_cases h0 : pyStrip raw = ""
  · simp [h0]
  · cases hp : lib.parse (pyStrip raw)
        (if starts_with_plus (pyStrip raw) then none else some region) with
    | none => simp [h0, hp]
    | some p => cases hv : lib.is_valid_number p <;> simp [h0, hp, hv]

/-- Witness for C6: the toy library normalizes the spec's example. -/
theorem normalize_e164_contract_witness :
    normalize_e164 toyLib " (412) 555-0100 " "US" = some "+14125550100" :=
  (normalize_e164_contract toyLib " (412) 555-0100 " "US").2 14125550100
    (by decide) (by decide) (by decide)

/-- C10: calling `set_opted_out` for a canonical phone with no contact
row is a silent no-op — it returns normally with the store, the audit
log and the id counter entirely unchanged, and writes no audit entry. -/
theorem set_consent_absent_noop (db : DB) (now : Nat) (phone : String) (oo : Bool)
    (actor : String) (log : Bool) (h : get_contact_by_phone db phone = none) :
    set_opted_out db now phone oo actor log = db :=
  set_opted_out_absent db now phone oo actor log h

/-- Witness for C10 on an empty store. -/
theorem set_consent_absent_noop_witness :
    set_opted_out dbInit 7 "+15551234567" true "admin" true = dbInit :=
  set_consent_absent_noop dbInit 7 "+15551234567" true "admin" true (by decide)

/-- C1: whenever the sender normalizes and the uppercased token set
intersects the opt-out keywords — whatever other tokens are present and
whatever the contact's prior state — the handler leaves a contact stored
for the canonical phone with `opted_out = true` (created with empty name
if it was absent, keeping its stored name otherwise) and returns the
opt-out confirmation reply. -/
theorem inbound_sms_optout_universal (lib : PhoneLib) (w : World) (now : Nat)
    (from_number body : String) (phone : String)
    (hn : normalize_e164 lib from_number DEFAULT_REGION = some phone)
    (hk : hasAny (tokens_upper (pyStrip body)) OPTOUT_KEYWORDS = true) :
    ∃ c, get_contact_by_phone (inbound_sms lib w now from_number body).1.db phone = some c ∧
      c.opted_out = true ∧
      c.name = ((get_contact_by_phone w.db phone).map Contact.name).getD "" ∧
      (inbound_sms lib w now from_number body).2 = reply_opted_out := by
  unfold inbound_sms
  rw [hn]
  simp only [hk, if_true]
  cases hc : get_contact_by_phone w.db phone with
  | some c =>
      dsimp only [export_refresh]
      exact ⟨{ c with opted_out := true, updated_at := now },
        get_set_opted_out_existing w.db now phone true "system" c hc, rfl, rfl, trivial⟩
  | none =>
      dsimp only [export_refresh]
      have h0 := get_add_contact_absent w.db now phone "" "system" hc
      exact ⟨⟨w.db.nextId, phone, "", true, now, now⟩,
        get_set_opted_out_existing (add_contact w.db now phone "" "system" true).1
          now phone true "system" ⟨w.db.nextId, phone, "", false, now, now⟩ h0,
        rfl, rfl, trivial⟩

/-- An opted-in contact with a stored name, for concrete witnesses. -/
def exWorldNamed : World :=
  ⟨⟨[⟨1, "+14125550100", "Joey", false, 0, 0⟩], 2, []⟩, [("+14125550100", "Joey")], []⟩

/-- Witness for C1: "please STOP now" from a named opted-in contact. -/
theorem inbound_sms_optout_universal_witness :
    ∃ c, get_contact_by_phone
        (inbound_sms toyLib exWorldNamed 9 "+14125550100" "please STOP now").1.db
        "+14125550100" = some c ∧
      c.opted_out = true ∧
      c.name = ((get_contact_by_phone exWorldNamed.db "+14125550100").map Contact.name).getD "" ∧
      (inbound_sms toyLib exWorldNamed 9 "+14125550100" "please STOP now").2 = reply_opted_out :=
  inbound_sms_optout_universal toyLib exWorldNamed 9 "+14125550100" "please STOP now"
    "+14125550100" (by decide) (by decide)

/-- An opted-in contact whose name was never captured. -/
def exWorldUnnamed : World :=
  ⟨⟨[⟨1, "+14125550100", "", false, 0, 0⟩], 2, []⟩, [("+14125550100", "")], []⟩

/-- C2 counterexample: an existing contact with an empty stored name
texting "JOIN" satisfies every hypothesis of the claim's second case,
yet the code replies with the short subscription confirmation rather
than the reply asking for the sender's first name. -/
theorem inbound_sms_optin_empty_name_counterexample :
    get_contact_by_phone exWorldUnnamed.db "+14125550100" =
      some ⟨1, "+14125550100", "", false, 0, 0⟩ ∧
    hasAny (tokens_upper (pyStrip "JOIN")) OPTIN_KEYWORDS = true ∧
    hasAny (tokens_upper (pyStrip "JOIN")) OPTOUT_KEYWORDS = false ∧
    hasAny (tokens_upper (pyStrip "JOIN")) HELP_KEYWORDS = false ∧
    normalize_e164 toyLib "+14125550100" DEFAULT_REGION = some "+14125550100" ∧
    (inbound_sms toyLib exWorldUnnamed 5 "+14125550100" "JOIN").2 = reply_subscribed ∧
    reply_subscribed ≠ reply_ask_name := by
  refine ⟨by decide, by decide, by decide, by decide, by decide, by decide, by decide⟩

/-- C2 (amended): on an opt-in message (no opt-out or help token), any
*existing* contact — whether or not its stored name is empty — is set to
`opted_out = false` and receives the short subscription confirmation;
only when no contact exists is one created (empty name, opted in) with
the reply asking for the sender's first name. -/
theorem inbound_sms_optin_branch (lib : PhoneLib) (w : World) (now : Nat)
    (from_number body : String) (phone : String)
    (hn : normalize_e164 lib from_number DEFAULT_REGION = some phone)
    (hout : hasAny (tokens_upper (pyStrip body)) OPTOUT_KEYWORDS = false)
    (hhelp : hasAny (tokens_upper (pyStrip body)) HELP_KEYWORDS = false)
    (hin : hasAny (tokens_upper (pyStrip body)) OPTIN_KEYWORDS = true) :
    (∀ c, get_contact_by_phone w.db phone = some c →
      get_contact_by_phone (inbound_sms lib w now from_number body).1.db phone =
        some { c with opted_out := false, updated_at := now } ∧
      (inbound_sms lib w now from_number body).2 = reply_subscribed) ∧
    (get_contact_by_phone w.db phone = none →
      get_contact_by_phone (inbound_sms lib w now from_number body).1.db phone =
        some ⟨w.db.nextId, phone, "", false, now, now⟩ ∧
      (inbound_sms lib w now from_number body).2 = reply_ask_name) := by
  unfold inbound_sms
  rw [hn]
  simp only [hout, hhelp, hin, Bool.false_eq_true, if_false, if_true]
  constructor
  · intro c hc
    simp only [hc]
    dsimp only [export_refresh, ASK_NAME_ON_JOIN]
    exact ⟨get_set_opted_out_existing w.db now phone false "system" c hc, trivial⟩
  · intro hc
    simp only [hc]
    dsimp only [export_refresh, ASK_NAME_ON_JOIN]
    have h0 := get_add_contact_absent w.db now phone "" "system" hc
    exact ⟨get_set_opted_out_existing (add_contact w.db now phone "" "system" true).1
        now phone false "system" ⟨w.db.nextId, phone, "", false, now, now⟩ h0, rfl⟩

/-- Witness for the amended C2: a fresh number texting "join". -/
theorem inbound_sms_optin_branch_witness :
    get_contact_by_phone
        (inbound_sms toyLib ⟨dbInit, [], []⟩ 4 "(412) 555-0100" "join").1.db
        "+14125550100" = some ⟨1, "+14125550100", "", false, 4, 4⟩ ∧
    (inbound_sms toyLib ⟨dbInit, [], []⟩ 4 "(412) 555-0100" "join").2 = reply_ask_name :=
  (inbound_sms_optin_branch toyLib ⟨dbInit, [], []⟩ 4 "(412) 555-0100" "join" "+14125550100"
    (by decide) (by decide) (by decide) (by decide)).2 (by decide)

/-- C4: on a keyword-free message from an opted-in contact with an empty
stored name, the whole body is sanitized as a candidate name; a nonempty
result is stored (with a personalized confirmation reply), an empty
result causes no mutation and the generic instruction reply. -/
theorem inbound_sms_name_capture (lib : PhoneLib) (w : World) (now : Nat)
    (from_number body : String) (phone : String) (c : Contact)
    (hn : normalize_e164 lib from_number DEFAULT_REGION = some phone)
    (hout : hasAny (tokens_upper (pyStrip body)) OPTOUT_KEYWORDS = false)
    (hhelp : hasAny (tokens_upper (pyStrip body)) HELP_KEYWORDS = false)
    (hin : hasAny (tokens_upper (pyStrip body)) OPTIN_KEYWORDS = false)
    (hc : get_contact_by_phone w.db phone = some c)
    (hopt : c.opted_out = false)
    (hname : pyStrip c.name = "") :
    (clean_name (pyStrip body) ≠ "" →
      get_contact_by_phone (inbound_sms lib w now from_number body).1.db phone =
        some { c with name := clean_name (pyStrip body), updated_at := now } ∧
      (inbound_sms lib w now from_number body).2 = reply_thanks (clean_name (pyStrip body))) ∧
    (clean_name (pyStrip body) = "" →
      inbound_sms lib w now from_number body = (w, reply_generic)) := by
  have hcp : c.phone = phone := phone_eq_of_get w.db phone c hc
  unfold inbound_sms
  rw [hn]
  simp only [hout, hhelp, hin, Bool.false_eq_true, if_false]
  simp only [hc]
  rw [if_pos (⟨hopt, rfl, hname⟩ :
    c.opted_out = false ∧ ASK_NAME_ON_JOIN = true ∧ pyStrip c.name = "")]
  constructor
  · intro hne
    rw [if_pos hne]
    have h1 := update_contact_same w.db now phone (clean_name (pyStrip body)) c hc
    simp only [h1]
    have hfind : (w.db.contacts.map (fun d => if d.phone == phone then
          { d with phone := phone, name := clean_name (pyStrip body), updated_at := now }
        else d)).find? (fun d => d.phone == phone) =
        some { c with phone := phone, name := clean_name (pyStrip body), updated_at := now } := by
      rw [find?_map_keyed (fun d => d.phone == phone)
        (fun d => { d with phone := phone, name := clean_name (pyStrip body), updated_at := now })
        (fun d _ => by simp) w.db.contacts]
      rw [show w.db.contacts.find? (fun d => d.phone == phone) = some c from hc]
      rfl
    simp only [get_contact_by_phone] at hfind ⊢
    simp only [hfind]
    dsimp only [export_refresh]
    exact ⟨by rw [hfind, hcp], trivial⟩
  · intro heq
    rw [if_neg (by simp [heq])]

/-- Witness for C4: the unnamed opted-in contact texting "Joey". -/
theorem inbound_sms_name_capture_witness :
    get_contact_by_phone
        (inbound_sms toyLib exWorldUnnamed 8 "+14125550100" "Joey").1.db "+14125550100" =
      some ⟨1, "+14125550100", "Joey", false, 0, 8⟩ ∧
    (inbound_sms toyLib exWorldUnnamed 8 "+14125550100" "Joey").2 = reply_thanks "Joey" :=
  (inbound_sms_name_capture toyLib exWorldUnnamed 8 "+14125550100" "Joey" "+14125550100"
    ⟨1, "+14125550100", "", false, 0, 0⟩ (by decide) (by decide) (by decide) (by decide)
    (by decide) (by decide) (by decide)).1 (by decide)

/-- Lookup by id after an all-field edit of the row with that id. -/
theorem get_by_id_after_edit (db : DB) (now : Nat) (contact_id : Nat)
    (np nn : String) (oo : Bool) (before : Contact)
    (hb : get_contact_by_id db contact_id = some before)
    (i : Nat) (a : List AuditEntry) :
    get_contact_by_id
      ⟨db.contacts.map (fun d => if d.id == contact_id then
          edit_fields d np nn oo now else d), i, a⟩ contact_id =
      some (edit_fields before np nn oo now) := by
  unfold get_contact_by_id at hb ⊢
  have hmk := find?_map_keyed (fun d => d.id == contact_id)
      (fun d => edit_fields d np nn oo now) (fun d hd => hd) db.contacts
  simp only [hmk, hb]
  rfl

/-- C3: each audited store operation — create, opt-in/opt-out, admin
update, delete (by phone or id) — appends exactly one audit entry in the
same atomic step as its mutation, whose `before` snapshot is the stored
row immediately preceding the mutation and whose `after` snapshot is the
stored row immediately following it (`none` on the missing side of
creates and deletes). -/
theorem audit_every_mutation :
    (∀ db now phone name actor, get_contact_by_phone db phone = none →
      (add_contact db now phone name actor true).1.audit =
        db.audit ++ [⟨actor, "create", some db.nextId, none,
          some ⟨db.nextId, phone, name, false, now, now⟩, now⟩] ∧
      get_contact_by_phone (add_contact db now phone name actor true).1 phone =
        some ⟨db.nextId, phone, name, false, now, now⟩) ∧
    (∀ db now phone oo actor c, get_contact_by_phone db phone = some c →
      (set_opted_out db now phone oo actor true).audit =
        db.audit ++ [⟨actor, if oo then "opt_out" else "opt_in", some c.id, some c,
          some { c with opted_out := oo, updated_at := now }, now⟩] ∧
      get_contact_by_phone (set_opted_out db now phone oo actor true) phone =
        some { c with opted_out := oo, updated_at := now }) ∧
    (∀ db now contact_id np nn oo actor before,
      get_contact_by_id db contact_id = some before →
      ((np != before.phone) && (match get_contact_by_phone db np with
        | some existing => existing.id != contact_id
        | none => false)) = false →
      ∃ db1, update_contact_by_id db now contact_id np nn oo actor =
          .ok (db1, some (edit_fields before np nn oo now)) ∧
        db1.audit = db.audit ++ [⟨actor, "update", some contact_id, some before,
          some (edit_fields before np nn oo now), now⟩] ∧
        get_contact_by_id db1 contact_id = some (edit_fields before np nn oo now)) ∧
    (∀ db now phone actor c, get_contact_by_phone db phone = some c →
      (delete_contact db now phone actor true).audit =
        db.audit ++ [⟨actor, "delete", some c.id, some c, none, now⟩] ∧
      get_contact_by_phone (delete_contact db now phone actor true) phone = none) ∧
    (∀ db now contact_id actor c, get_contact_by_id db contact_id = some c →
      (delete_contact_by_id db now contact_id actor true).1.audit =
        db.audit ++ [⟨actor, "delete", some contact_id, some c, none, now⟩] ∧
      get_contact_by_id (delete_contact_by_id db now contact_id actor true).1 contact_id
        = none) := by
  refine ⟨?_, ?_, ?_, ?_, ?_⟩
  · intro db now phone name actor h
    refine ⟨?_, get_add_contact_absent db now phone name actor h⟩
    rw [add_contact_absent db now phone name actor h]
  · intro db now phone oo actor c h
    refine ⟨?_, get_set_opted_out_existing db now phone oo actor c h⟩
    rw [set_opted_out_existing db now phone oo actor c h]
  · intro db now contact_id np nn oo actor before hb hcol
    refine ⟨_, update_contact_by_id_ok db now contact_id np nn oo actor before hb hcol,
      rfl, get_by_id_after_edit db now contact_id np nn oo before hb _ _⟩
  · intro db now phone actor c h
    refine ⟨?_, get_delete_contact db now phone actor true⟩
    rw [delete_contact_existing db now phone actor c h]
  · intro db now contact_id actor c h
    rw [delete_contact_by_id_found db now contact_id actor c h]
    exact ⟨rfl, by
      unfold get_contact_by_id
      exact find?_filter_not db.contacts⟩

/-- A one-contact store for concrete witnesses. -/
def exDb : DB := ⟨[⟨1, "+14125550100", "Joey", false, 0, 0⟩], 2, []⟩

/-- Witness for C3: each of the five audited operations run concretely. -/
theorem audit_every_mutation_witness :
    ((add_contact dbInit 3 "+14125550100" "Joey" "admin" true).1.audit =
        dbInit.audit ++ [⟨"admin", "create", some dbInit.nextId, none,
          some ⟨dbInit.nextId, "+14125550100", "Joey", false, 3, 3⟩, 3⟩] ∧
      get_contact_by_phone (add_contact dbInit 3 "+14125550100" "Joey" "admin" true).1
          "+14125550100" = some ⟨dbInit.nextId, "+14125550100", "Joey", false, 3, 3⟩) ∧
    ((set_opted_out exDb 4 "+14125550100" true "admin" true).audit =
        exDb.audit ++ [⟨"admin", "opt_out", some 1,
          some ⟨1, "+14125550100", "Joey", false, 0, 0⟩,
          some ⟨1, "+14125550100", "Joey", true, 0, 4⟩, 4⟩] ∧
      get_contact_by_phone (set_opted_out exDb 4 "+14125550100" true "admin" true)
          "+14125550100" = some ⟨1, "+14125550100", "Joey", true, 0, 4⟩) ∧
    (∃ db1, update_contact_by_id exDb 5 1 "+14125550100" "Joe" true "admin" =
        .ok (db1, some ⟨1, "+14125550100", "Joe", true, 0, 5⟩) ∧
      db1.audit = exDb.audit ++ [⟨"admin", "update", some 1,
        some ⟨1, "+14125550100", "Joey", false, 0, 0⟩,
        some ⟨1, "+14125550100", "Joe", true, 0, 5⟩, 5⟩] ∧
      get_contact_by_id db1 1 = some ⟨1, "+14125550100", "Joe", true, 0, 5⟩) ∧
    ((delete_contact exDb 6 "+14125550100" "admin" true).audit =
        exDb.audit ++ [⟨"admin", "delete", some 1,
          some ⟨1, "+14125550100", "Joey", false, 0, 0⟩, none, 6⟩] ∧
      get_contact_by_phone (delete_contact exDb 6 "+14125550100" "admin" true)
          "+14125550100" = none) ∧
    ((delete_contact_by_id exDb 7 1 "admin" true).1.audit =
        exDb.audit ++ [⟨"admin", "delete", some 1,
          some ⟨1, "+14125550100", "Joey", false, 0, 0⟩, none, 7⟩] ∧
      get_contact_by_id (delete_contact_by_id exDb 7 1 "admin" true).1 1 = none) :=
  ⟨audit_every_mutation.1 dbInit 3 "+14125550100" "Joey" "admin" (by decide),
   audit_every_mutation.2.1 exDb 4 "+14125550100" true "admin"
     ⟨1, "+14125550100", "Joey", false, 0, 0⟩ (by decide),
   audit_every_mutation.2.2.1 exDb 5 1 "+14125550100" "Joe" true "admin"
     ⟨1, "+14125550100", "Joey", false, 0, 0⟩ (by decide) (by decide),
   audit_every_mutation.2.2.2.1 exDb 6 "+14125550100" "admin"
     ⟨1, "+14125550100", "Joey", false, 0, 0⟩ (by decide),
   audit_every_mutation.2.2.2.2 exDb 7 1 "admin"
     ⟨1, "+14125550100", "Joey", false, 0, 0⟩ (by decide)⟩

/-- C7: a create on an already-present phone, and either update path
whose new phone collides with a different contact, report a
distinguishable error and return no mutated store — every existing
contact row is left untouched. -/
theorem uniqueness_conflict_rejected :
    (∀ db now phone name actor log,
      db.contacts.any (fun c => c.phone == phone) = true →
      add_contact db now phone name actor log = (db, false)) ∧
    (∀ db now old_phone new_phone new_name c₀,
      get_contact_by_phone db old_phone = some c₀ →
      new_phone ≠ old_phone →
      (get_contact_by_phone db new_phone).isSome = true →
      update_contact db now old_phone new_phone new_name =
        (db, some "That phone number already exists.")) ∧
    (∀ db now contact_id new_phone new_name oo actor before existing,
      get_contact_by_id db contact_id = some before →
      new_phone ≠ before.phone →
      get_contact_by_phone db new_phone = some existing →
      existing.id ≠ contact_id →
      update_contact_by_id db now contact_id new_phone new_name oo actor =
        .error "That phone number already exists.") :=
  ⟨fun db now phone name actor log h =>
      add_contact_present db now phone name actor log h,
   fun db now old_phone new_phone new_name c₀ h hne hex =>
      update_contact_collision db now old_phone new_phone new_name c₀ h hne hex,
   fun db now contact_id new_phone new_name oo actor before existing hb hne hex hid =>
      update_contact_by_id_collision db now contact_id new_phone new_name oo actor
        before existing hb hne hex hid⟩

/-- A two-contact store for conflict witnesses. -/
def exDb2 : DB :=
  ⟨[⟨1, "+14125550100", "Joey", false, 0, 0⟩, ⟨2, "+14125550101", "Amy", false, 0, 0⟩], 3, []⟩

/-- Witness for C7: duplicate create and colliding updates rejected. -/
theorem uniqueness_conflict_rejected_witness :
    add_contact exDb2 9 "+14125550100" "X" "admin" true = (exDb2, false) ∧
    update_contact exDb2 9 "+14125550101" "+14125550100" "Amy" =
      (exDb2, some "That phone number already exists.") ∧
    update_contact_by_id exDb2 9 2 "+14125550100" "Amy" false "admin" =
      .error "That phone number already exists." :=
  ⟨uniqueness_conflict_rejected.1 exDb2 9 "+14125550100" "X" "admin" true (by decide),
   uniqueness_conflict_rejected.2.1 exDb2 9 "+14125550101" "+14125550100" "Amy"
     ⟨2, "+14125550101", "Amy", false, 0, 0⟩ (by decide) (by decide) (by decide),
   uniqueness_conflict_rejected.2.2 exDb2 9 2 "+14125550100" "Amy" false "admin"
     ⟨2, "+14125550101", "Amy", false, 0, 0⟩ ⟨1, "+14125550100", "Joey", false, 0, 0⟩
     (by decide) (by decide) (by decide) (by decide)⟩

/-- The exported artifacts agree with a fresh recomputation from the
current store contents. -/
def exports_fresh (w : World) : Prop :=
  w.csvRows = csvOf w.db ∧ w.optouts = optoutsOf w.db

/-- C9: every request handler — the webhook and each admin mutation
endpoint — either returns with the world entirely unchanged (its
non-mutating branches) or returns with both exported artifacts exactly
equal to a fresh recomputation from the store it just wrote, the refresh
having been performed synchronously before the reply is produced. -/
theorem exports_never_stale :
    (∀ lib w now from_number body,
      (inbound_sms lib w now from_number body).1 = w ∨
      exports_fresh (inbound_sms lib w now from_number body).1) ∧
    (∀ lib w now raw_phone raw_name actor,
      (admin_add lib w now raw_phone raw_name actor).1 = w ∨
      exports_fresh (admin_add lib w now raw_phone raw_name actor).1) ∧
    (∀ lib w now contact_id raw_phone raw_name opted_out_raw actor,
      (admin_api_update_contact lib w now contact_id raw_phone raw_name
        opted_out_raw actor).1 = w ∨
      exports_fresh (admin_api_update_contact lib w now contact_id raw_phone raw_name
        opted_out_raw actor).1) ∧
    (∀ w now contact_id actor,
      (admin_api_delete_contact w now contact_id actor).1 = w ∨
      exports_fresh (admin_api_delete_contact w now contact_id actor).1) ∧
    (∀ lib w now raw_phone oo actor,
      admin_contacts_set_consent lib w now raw_phone oo actor = w ∨
      exports_fresh (admin_contacts_set_consent lib w now raw_phone oo actor)) ∧
    (∀ lib w now raw_phone actor,
      admin_contacts_delete lib w now raw_phone actor = w ∨
      exports_fresh (admin_contacts_delete lib w now raw_phone actor)) ∧
    (∀ lib w now old_phone_raw new_phone_raw name_raw opted_out_raw actor,
      (admin_contacts_edit lib w now old_phone_raw new_phone_raw name_raw
        opted_out_raw actor).1 = w ∨
      exports_fresh (admin_contacts_edit lib w now old_phone_raw new_phone_raw name_raw
        opted_out_raw actor).1) := by
  refine ⟨?_, ?_, ?_, ?_, ?_, ?_, ?_⟩
  · intro lib w now from_number body
    unfold inbound_sms
    dsimp only
    repeat' split
    all_goals first
      | (left; rfl)
      | (right; exact ⟨rfl, rfl⟩)
  · intro lib w now raw_phone raw_name actor
    unfold admin_add
    dsimp only
    repeat' split
    all_goals first
      | (left; rfl)
      | (right; exact ⟨rfl, rfl⟩)
  · intro lib w now contact_id raw_phone raw_name opted_out_raw actor
    unfold admin_api_update_contact
    dsimp only
    repeat' split
    all_goals first
      | (left; rfl)
      | (right; exact ⟨rfl, rfl⟩)
  · intro w now contact_id actor
    unfold admin_api_delete_contact
    dsimp only
    repeat' split
    all_goals first
      | (left; rfl)
      | (right; exact ⟨rfl, rfl⟩)
  · intro lib w now raw_phone oo actor
    unfold admin_contacts_set_consent
    dsimp only
    repeat' split
    all_goals first
      | (left; rfl)
      | (right; exact ⟨rfl, rfl⟩)
  · intro lib w now raw_phone actor
    unfold admin_contacts_delete
    dsimp only
    repeat' split
    all_goals first
      | (left; rfl)
      | (right; exact ⟨rfl, rfl⟩)
  · intro lib w now old_phone_raw new_phone_raw name_raw opted_out_raw actor
    unfold admin_contacts_edit
    dsimp only
    repeat' split
    all_goals first
      | (left; rfl)
      | (right; exact ⟨rfl, rfl⟩)

/-! ### The uniqueness invariant (C8) -/

/-- The store operations that create or update contact rows. -/
inductive StoreOp where
  | create (phone name actor : String) (log : Bool)
  | rename (old_phone new_phone new_name : String)
  | edit (contact_id : Nat) (new_phone new_name : String) (opted_out : Bool) (actor : String)

/-- Run one timestamped operation against the store; errors leave the
caller's store as it was. -/
def apply_op (db : DB) (t : Nat × StoreOp) : DB :=
  match t.2 with
  | .create phone name actor log => (add_contact db t.1 phone name actor log).1
  | .rename old_phone new_phone new_name =>
      (update_contact db t.1 old_phone new_phone new_name).1
  | .edit contact_id new_phone new_name opted_out actor =>
      match update_contact_by_id db t.1 contact_id new_phone new_name opted_out actor with
      | .ok (db1, _) => db1
      | .error _ => db

def applyOps (db : DB) (ops : List (Nat × StoreOp)) : DB := ops.foldl apply_op db

/-- Internal store invariant: pairwise-distinct phones and ids, and all
ids below the AUTOINCREMENT counter. -/
def DBInv (db : DB) : Prop :=
  db.contacts.Pairwise (fun a b => a.phone ≠ b.phone ∧ a.id ≠ b.id) ∧
  ∀ c ∈ db.contacts, c.id < db.nextId

theorem DBInv_symm :
    Symmetric (fun a b : Contact => a.phone ≠ b.phone ∧ a.id ≠ b.id) :=
  fun _ _ h => ⟨h.1.symm, h.2.symm⟩

/-- Two stored rows with the same id are the same row. -/
theorem mem_unique_of_id (db : DB) (h : DBInv db) {a b : Contact}
    (ha : a ∈ db.contacts) (hb : b ∈ db.contacts) (hid : a.id = b.id) : a = b := by
  by_contra hne
  exact (h.1.forall DBInv_symm ha hb hne).2 hid

theorem pairwise_map_of_mem {G : Contact → Contact} {l : List Contact}
    (h : ∀ a b, a ∈ l → b ∈ l → a.phone ≠ b.phone ∧ a.id ≠ b.id →
      (G a).phone ≠ (G b).phone ∧ (G a).id ≠ (G b).id)
    (hl : l.Pairwise (fun a b => a.phone ≠ b.phone ∧ a.id ≠ b.id)) :
    (l.map G).Pairwise (fun a b => a.phone ≠ b.phone ∧ a.id ≠ b.id) := by
  rw [List.pairwise_map]
  exact hl.imp_of_mem (fun ha hb hab => h _ _ ha hb hab)

/-- `add_contact` preserves the invariant. -/
theorem DBInv_add_contact (db : DB) (now : Nat) (phone name actor : String) (log : Bool)
    (h : DBInv db) : DBInv (add_contact db now phone name actor log).1 := by
  unfold add_contact
  cases hany : db.contacts.any (fun c => c.phone == phone) with
  | true => exact h
  | false =>
    have hnone : db.contacts.find? (fun c => c.phone == phone) = none :=
      (any_eq_false_iff_find?_eq_none _ _).mp hany
    have hfresh : ∀ c ∈ db.contacts, c.phone ≠ phone := by
      intro c hc
      have := List.find?_eq_none.mp hnone c hc
      simpa using this
    have key : DBInv ⟨db.contacts ++ [⟨db.nextId, phone, name, false, now, now⟩],
        db.nextId + 1, db.audit⟩ := by
      constructor
      · refine List.pairwise_append.mpr ⟨h.1, List.pairwise_singleton _ _, ?_⟩
        intro a ha b hb
        have hbeq : b = ⟨db.nextId, phone, name, false, now, now⟩ := by simpa using hb
        subst hbeq
        exact ⟨hfresh a ha, Nat.ne_of_lt (h.2 a ha)⟩
      · intro c hc
        rcases List.mem_append.mp hc with hc | hc
        · exact Nat.lt_succ_of_lt (h.2 c hc)
        · have : c = ⟨db.nextId, phone, name, false, now, now⟩ := by simpa using hc
          subst this
          exact Nat.lt_succ_self _
    cases log with
    | true => exact key
    | false => exact key

/-- `update_contact` preserves the invariant. -/
theorem DBInv_update_contact (db : DB) (now : Nat) (old_phone new_phone new_name : String)
    (h : DBInv db) : DBInv (update_contact db now old_phone new_phone new_name).1 := by
  unfold update_contact
  cases ho : get_contact_by_phone db old_phone with
  | none => exact h
  | some c₀ =>
    by_cases hcase : new_phone ≠ old_phone ∧ (get_contact_by_phone db new_phone).isSome
    · rw [if_pos hcase]
      exact h
    · rw [if_neg hcase]
      constructor
      · refine pairwise_map_of_mem ?_ h.1
        intro a b ha hb hab
        refine ⟨?_, ?_⟩
        · by_cases hnp : new_phone = old_phone
          · by_cases hao : (a.phone == old_phone) = true <;>
              by_cases hbo : (b.phone == old_phone) = true <;>
              simp only [hao, hbo, if_true, if_false]
            · rw [beq_iff_eq] at hao hbo
              exact absurd (hao.trans hbo.symm) hab.1
            · rw [beq_iff_eq] at hao
              exact fun hcontra => hab.1 (by rw [hao, ← hnp]; exact hcontra)
            · rw [beq_iff_eq] at hbo
              exact fun hcontra => hab.1 (by rw [hbo, ← hnp]; exact hcontra)
            · exact hab.1
          · have hnew : get_contact_by_phone db new_phone = none := by
              cases hgn : get_contact_by_phone db new_phone with
              | none => rfl
              | some e =>
                  exact absurd ⟨hnp, by rw [hgn]; rfl⟩ hcase
            have hfresh : ∀ c ∈ db.contacts, c.phone ≠ new_phone := by
              intro c hc
              have := List.find?_eq_none.mp hnew c hc
              simpa using this
            by_cases hao : (a.phone == old_phone) = true <;>
              by_cases hbo : (b.phone == old_phone) = true <;>
              simp only [hao, hbo, if_true, if_false]
            · simp only [beq_iff_eq] at hao hbo
              exact absurd (hao.trans hbo.symm) hab.1
            · exact fun hcontra => hfresh b hb hcontra.symm
            · exact hfresh a ha
            · exact hab.1
        · by_cases hao : (a.phone == old_phone) = true <;>
            by_cases hbo : (b.phone == old_phone) = true <;>
            simp only [hao, hbo, if_true, if_false] <;>
            exact hab.2
      · intro c hc
        obtain ⟨x, hx, rfl⟩ := List.mem_map.mp hc
        have hid : (if (x.phone == old_phone) = true then
            { x with phone := new_phone, name := new_name, updated_at := now }
          else x).id = x.id := by
          by_cases hxo : (x.phone == old_phone) = true <;> simp [hxo]
        rw [hid]
        exact h.2 x hx

/-- `update_contact_by_id` preserves the invariant. -/
theorem DBInv_update_contact_by_id (db : DB) (now : Nat) (contact_id : Nat)
    (new_phone new_name : String) (opted_out : Bool) (actor : String)
    (h : DBInv db) :
    DBInv (match update_contact_by_id db now contact_id new_phone new_name opted_out actor with
      | .ok (db1, _) => db1
      | .error _ => db) := by
  cases hb : get_contact_by_id db contact_id with
  | none =>
      rw [update_contact_by_id_notfound db now contact_id new_phone new_name opted_out actor hb]
      exact h
  | some before =>
    have hbefore_mem : before ∈ db.contacts := mem_of_get_id db contact_id before hb
    have hbefore_id : before.id = contact_id := id_eq_of_get db contact_id before hb
    cases hcol : ((new_phone != before.phone) &&
        (match get_contact_by_phone db new_phone with
         | some existing => existing.id != contact_id
         | none => false)) with
    | true =>
        have hx : new_phone ≠ before.phone ∧
            ∃ e, get_contact_by_phone db new_phone = some e ∧ e.id ≠ contact_id := by
          cases hgn : get_contact_by_phone db new_phone with
          | none => rw [hgn] at hcol; simp at hcol
          | some e =>
              rw [hgn] at hcol
              simp only [Bool.and_eq_true, bne_iff_ne] at hcol
              exact ⟨hcol.1, e, rfl, hcol.2⟩
        obtain ⟨hne, e, hex, hid⟩ := hx
        rw [update_contact_by_id_collision db now contact_id new_phone new_name opted_out
          actor before e hb hne hex hid]
        exact h
    | false =>
      rw [update_contact_by_id_ok db now contact_id new_phone new_name opted_out actor
        before hb hcol]
      have hsafe : ∀ b ∈ db.contacts, b.id ≠ contact_id → b.phone ≠ new_phone := by
        intro b hbmem hbid
        by_cases hnp : new_phone = before.phone
        · have hbne : b ≠ before := fun he => hbid (he ▸ hbefore_id)
          have := (h.1.forall DBInv_symm hbmem hbefore_mem hbne).1
          rw [hnp]
          exact this
        · intro hbp
          cases hgn : get_contact_by_phone db new_phone with
          | none =>
              have := List.find?_eq_none.mp hgn b hbmem
              simp [hbp] at this
          | some e =>
              rw [hgn] at hcol
              have hbne' : (new_phone != before.phone) = true := by
                simp [bne_iff_ne, hnp]
              rw [hbne'] at hcol
              simp only [Bool.true_and, bne_eq_false_iff_eq] at hcol
              have he_mem : e ∈ db.contacts := mem_of_get_phone db new_phone e hgn
              have he_phone : e.phone = new_phone := phone_eq_of_get db new_phone e hgn
              have he_eq : e = before :=
                mem_unique_of_id db h he_mem hbefore_mem (by rw [hcol, hbefore_id])
              exact hnp (by rw [← he_phone, he_eq])
      constructor
      · refine pairwise_map_of_mem ?_ h.1
        intro a b ha hb' hab
        constructor
        · by_cases hao : (a.id == contact_id) = true <;>
            by_cases hbo : (b.id == contact_id) = true <;>
            simp only [hao, hbo, if_true, if_false]
          · exfalso
            rw [beq_iff_eq] at hao hbo
            exact hab.2 (hao.trans hbo.symm)
          · have hbid : b.id ≠ contact_id := by simpa using hbo
            exact Ne.symm (hsafe b hb' hbid)
          · have haid : a.id ≠ contact_id := by simpa using hao
            exact hsafe a ha haid
          · exact hab.1
        · by_cases hao : (a.id == contact_id) = true <;>
            by_cases hbo : (b.id == contact_id) = true <;>
            simp only [hao, hbo, if_true, if_false] <;>
            exact hab.2
      · intro c hc
        obtain ⟨x, hx, rfl⟩ := List.mem_map.mp hc
        have hid : (if (x.id == contact_id) = true then
            edit_fields x new_phone new_name opted_out now else x).id = x.id := by
          by_cases hxo : (x.id == contact_id) = true <;> simp [hxo, edit_fields]
        rw [hid]
        exact h.2 x hx

/-- C8: starting from the fresh store, after any sequence of create and
update operations no two stored contacts share a phone — at most one
Contact exists per canonical phone value. -/
theorem phone_uniqueness_invariant (ops : List (Nat × StoreOp)) :
    (applyOps dbInit ops).contacts.Pairwise (fun a b => a.phone ≠ b.phone) := by
  have key : ∀ (l : List (Nat × StoreOp)) (db : DB), DBInv db → DBInv (applyOps db l) := by
    intro l
    induction l with
    | nil => exact fun db hdb => hdb
    | cons t rest ih =>
        intro db hdb
        have h1 : DBInv (apply_op db t) := by
          cases t with
          | mk time op =>
            cases op with
            | create phone name actor log =>
                exact DBInv_add_contact db time phone name actor log hdb
            | rename old_phone new_phone new_name =>
                exact DBInv_update_contact db time old_phone new_phone new_name hdb
            | edit contact_id new_phone new_name opted_out actor =>
                exact DBInv_update_contact_by_id db time contact_id new_phone new_name
                  opted_out actor hdb
        exact ih (apply_op db t) h1
  have hInit : DBInv dbInit :=
    ⟨List.Pairwise.nil, fun c hc => absurd hc (List.not_mem_nil c)⟩
  exact (key ops dbInit hInit).1.imp (fun hab => hab.1)

end EstateSms
